import Mathlib

/-!
Verification development for the googleplaces-mcp-server repository.

The repository exposes Google Places / Weather / Elevation / Directions
lookups as MCP tools over three transports.  This file gives a shallow
embedding of the JSON-RPC dispatch skeleton and of the tool handlers that
the verified properties talk about:

- the streamable-HTTP dispatcher `handleMcpRequest` and POST endpoint
  (src/unnamed/part_003, `handleMcpRequest` / `createHttpServer`);
- the WebSocket per-message handler (src/unnamed/part_004 lines 351-432,
  identical to the compiled src/unnamed/part_000 lines 299-377);
- the tool handlers `handleSearchPlaces`, `handleGetPlaceDetails`,
  `handleGetElevation` (src/unnamed/part_003, src/src/index.ts).

JavaScript numbers are modelled as rationals (none of the verified
properties depend on float rounding), absent object fields as `Option`,
and the single upstream `fetch` of each handler is made explicit: a
handler is split into a pre-fetch phase, which either throws or produces
the upstream request, and a post-fetch phase mapping the upstream
response.
-/

namespace GooglePlacesMcp

/-- Identifier of a JSON-RPC message: a JSON number, a JSON string, or the
JSON literal null.  An absent `id` field is modelled as `Option.none` at
the use sites. -/
inductive RpcId where
  | null : RpcId
  | num : Int → RpcId
  | str : String → RpcId
deriving DecidableEq

/-- Error object of a JSON-RPC error response: `{code, message}`. -/
structure ErrorObj where
  code : Int
  message : String
deriving DecidableEq

/-- One item of the uniform tool-result content envelope
`{type: 'text', text: <JSON-encoded string>}`. -/
structure ContentItem where
  type : String
  text : String
deriving DecidableEq

/-- Uniform envelope every tool handler returns: `{content: [...]}`. -/
structure ToolCallResult where
  content : List ContentItem
deriving DecidableEq

/-- Result payload of a dispatcher success response: the fixed
initialize descriptor, the tool catalog, or a tool handler result.  The
concrete contents of the first two are irrelevant to the verified
properties, so they are represented by bare constructors. -/
inductive McpResult where
  | initInfo : McpResult
  | toolCatalog : McpResult
  | toolOutput : ToolCallResult → McpResult
deriving DecidableEq

/-- JSON-RPC response object as the code builds it: a record whose
`result` and `error` fields may each be present or absent.  `id = none`
models an absent id field (dropped by JSON.stringify), `some RpcId.null`
models an explicit null id. -/
structure JsonRpcResponse where
  jsonrpc : String
  id : Option RpcId
  result : Option McpResult
  error : Option ErrorObj
deriving DecidableEq

/-- Parameters object of an MCP request; only the `name` field is
inspected by the dispatcher (tool arguments are routed opaquely to the
handlers and are modelled by the handler-execution oracle below). -/
structure McpParams where
  name : Option String
deriving DecidableEq

instance : Inhabited McpParams := ⟨⟨none⟩⟩

/-- Inbound JSON-RPC request object, after JSON parsing. -/
structure McpRequest where
  jsonrpc : Option String
  id : Option RpcId
  method : String
  params : Option McpParams
deriving DecidableEq

/-- Modelled from the spec: error codes referenced as `JsonRpcError.*` in
src/utils/jsonrpc.js, which is imported by the HTTP transport but is not
present under src/.  These are the standard JSON-RPC 2.0 codes, matching
the literal -32603 hard-coded in the WebSocket variant and the MCP SDK
`ErrorCode.MethodNotFound`. -/
def INVALID_REQUEST : Int := -32600

/-- Modelled from the spec: see `INVALID_REQUEST`. -/
def METHOD_NOT_FOUND : Int := -32601

/-- Modelled from the spec: see `INVALID_REQUEST`. -/
def INVALID_PARAMS : Int := -32602

/-- Modelled from the spec: see `INVALID_REQUEST`. -/
def INTERNAL_ERROR : Int := -32603

/-- Modelled from the spec: `createSuccessResponse(id, result)` from
src/utils/jsonrpc.js (not under src/), per the spec JsonRpcResponse
contract: exactly one of result or error, here the result field. -/
def createSuccessResponse (id : Option RpcId) (r : McpResult) : JsonRpcResponse :=
  { jsonrpc := "2.0", id := id, result := some r, error := none }

/-- Modelled from the spec: `createErrorResponse(id, code, message)` from
src/utils/jsonrpc.js (not under src/), per the spec JsonRpcResponse
contract: exactly one of result or error, here the error field. -/
def createErrorResponse (id : Option RpcId) (code : Int) (message : String) : JsonRpcResponse :=
  { jsonrpc := "2.0", id := id, result := none, error := some ⟨code, message⟩ }

/-- Modelled from the spec: `isValidJsonRpc` from src/utils/jsonrpc.js
(not under src/): jsonrpc must equal the literal string "2.0" and method
must be a non-empty string. -/
def isValidJsonRpc (r : McpRequest) : Bool :=
  r.jsonrpc == some "2.0" && r.method != ""

/-- Modelled from the spec: `isNotification` from src/utils/jsonrpc.js
(not under src/): id absent or null marks a notification. -/
def isNotificationMsg (r : McpRequest) : Bool :=
  r.id == none || r.id == some RpcId.null

/-- Modelled from the spec: `validateMcpProtocolVersion` from
src/utils/jsonrpc.js (not under src/): the HTTP transport rejects
unsupported protocol-version headers; supported versions form a fixed
list containing the 2024-11-05 revision the server advertises. -/
def supportedProtocolVersions : List String :=
  ["2024-11-05", "2025-03-26", "2025-06-18"]

/-- Modelled from the spec: see `supportedProtocolVersions`. -/
def validateMcpProtocolVersion (v : String) : Bool :=
  v ∈ supportedProtocolVersions

/-- Tool names known to the streamable-HTTP dispatcher if-chain
(src/unnamed/part_003 lines 455-467). -/
def httpToolNames : List String :=
  ["search_places", "get_place_details", "get_weather", "get_elevation", "get_directions"]

/-- Tool names known to the WebSocket message handler if-chain
(src/unnamed/part_004 lines 384-393). -/
def wsToolNames : List String :=
  ["search_places", "get_place_details", "get_weather", "get_elevation"]

/-- Outcome of running a tool handler: a result envelope, or a thrown
exception carrying its message text.  Dispatch theorems are stated for an
arbitrary such oracle, abstracting the awaited upstream HTTP call. -/
def ToolExec : Type := String → Except String ToolCallResult

/-- Result of one dispatcher run: the response (`none` models the
dispatcher returning null, i.e. no response body) together with the
number of tool-handler invocations performed, to make the absence of
retries observable. -/
structure DispatchOut where
  response : Option JsonRpcResponse
  handlerRuns : Nat
deriving DecidableEq

/-- Embedding of `handleMcpRequest` (src/unnamed/part_003 lines 424-480):
routes on the method string; for tools/call checks `params.name` for JS
truthiness (absent or empty string fails with InvalidParams), then routes
on the tool name; the surrounding try/catch converts any exception thrown
by a handler into an InternalError response carrying the exception
message. -/
def handleMcpRequest (exec : ToolExec) (req : McpRequest) : DispatchOut :=
  let requestId := req.id
  if req.method = "initialize" then
    ⟨some (createSuccessResponse requestId McpResult.initInfo), 0⟩
  else if req.method = "ping" then
    ⟨none, 0⟩
  else if req.method = "tools/list" then
    ⟨some (createSuccessResponse requestId McpResult.toolCatalog), 0⟩
  else if req.method = "tools/call" then
    let params := req.params.getD default
    match params.name with
    | none => ⟨some (createErrorResponse requestId INVALID_PARAMS "Missing tool name"), 0⟩
    | some n =>
      if n = "" then
        ⟨some (createErrorResponse requestId INVALID_PARAMS "Missing tool name"), 0⟩
      else if n ∈ httpToolNames then
        match exec n with
        | Except.ok r => ⟨some (createSuccessResponse requestId (McpResult.toolOutput r)), 1⟩
        | Except.error msg => ⟨some (createErrorResponse requestId INTERNAL_ERROR msg), 1⟩
      else
        ⟨some (createErrorResponse requestId METHOD_NOT_FOUND ("Unknown tool: " ++ n)), 0⟩
  else if req.method = "notifications/initialized" then
    ⟨none, 0⟩
  else
    ⟨some (createErrorResponse requestId METHOD_NOT_FOUND ("Unknown method: " ++ req.method)), 0⟩

/-- Outcome of one POST /mcp exchange on the streamable-HTTP transport:
a 400 with a JSON-RPC error body, a 202 with an empty body, or a 200 with
the JSON-RPC response as body. -/
inductive PostOutcome where
  | badRequest : JsonRpcResponse → PostOutcome
  | accepted : PostOutcome
  | jsonBody : JsonRpcResponse → PostOutcome
deriving DecidableEq

/-- Embedding of the POST /mcp endpoint (src/unnamed/part_003 lines
490-529): validates the MCP-Protocol-Version header if present, validates
the JSON-RPC envelope, answers 202 for notifications (dispatching
fire-and-forget) and for null dispatch results, otherwise returns the
dispatcher response as the body. -/
def postMcp (exec : ToolExec) (protocolVersionHeader : Option String)
    (body : McpRequest) : PostOutcome :=
  let headerOk :=
    match protocolVersionHeader with
    | none => true
    | some v => validateMcpProtocolVersion v
  if !headerOk then
    PostOutcome.badRequest (createErrorResponse (some RpcId.null) INVALID_REQUEST
      "Unsupported MCP protocol version")
  else if !isValidJsonRpc body then
    PostOutcome.badRequest (createErrorResponse body.id INVALID_REQUEST
      "Invalid JSON-RPC request")
  else if isNotificationMsg body then
    PostOutcome.accepted
  else
    match (handleMcpRequest exec body).response with
    | none => PostOutcome.accepted
    | some resp => PostOutcome.jsonBody resp

/-- Result of the WebSocket per-message handler: the single outbound
message it sends, plus the tool-handler invocation count. -/
structure WsOut where
  response : JsonRpcResponse
  handlerRuns : Nat
deriving DecidableEq

/-- Embedding of the WebSocket message handler (src/unnamed/part_004
lines 351-432; compiled form src/unnamed/part_000 lines 299-377).  The
try block routes on method and tool name, throwing McpError MethodNotFound
for unknown ones; on success it sends `{jsonrpc, id: message.id, result}`
(the local sendError flag is never set, so the success path always fills
the result field).  The catch block sends an error response whose id is
`data.id || null` where data is the raw socket buffer, so the error id is
always null; the code is the McpError code, or -32603 for plain errors
(which is what tool handlers throw).  Every path performs exactly one
ws.send.  The message strings of thrown McpErrors are modelled by their
constructor arguments; no theorem depends on their exact text. -/
def wsTryOutcome (exec : ToolExec) (msg : McpRequest) : Except ErrorObj McpResult × Nat :=
  if msg.method = "initialize" then
    (Except.ok McpResult.initInfo, 0)
  else if msg.method = "tools/list" then
    (Except.ok McpResult.toolCatalog, 0)
  else if msg.method = "tools/call" then
    let params := msg.params.getD default
    match params.name with
    | some n =>
      if n ∈ wsToolNames then
        match exec n with
        | Except.ok r => (Except.ok (McpResult.toolOutput r), 1)
        | Except.error m => (Except.error ⟨INTERNAL_ERROR, m⟩, 1)
      else
        (Except.error ⟨METHOD_NOT_FOUND, "Unknown tool: " ++ n⟩, 0)
    | none =>
      (Except.error ⟨METHOD_NOT_FOUND, "Unknown tool: undefined"⟩, 0)
  else
    (Except.error ⟨METHOD_NOT_FOUND, "Unknown method: " ++ msg.method⟩, 0)

/-- Completion of `wsHandle`: the outbound message built from the try
outcome and sent by the single ws.send of each path. -/
def wsHandle (exec : ToolExec) (msg : McpRequest) : WsOut :=
  match wsTryOutcome exec msg with
  | (Except.ok r, k) =>
    ⟨{ jsonrpc := "2.0", id := msg.id, result := some r, error := none }, k⟩
  | (Except.error e, k) =>
    ⟨{ jsonrpc := "2.0", id := some RpcId.null, result := none, error := some e }, k⟩

/-- Well-formedness of a response body: exactly one of the result and
error fields is present. -/
def exclusiveBody (r : JsonRpcResponse) : Prop :=
  (r.result.isSome ∧ r.error = none) ∨ (r.result = none ∧ r.error.isSome)

/-! ## Tool handler embeddings

Each handler performs exactly one upstream fetch.  The pre-fetch phase of
a handler is a pure function from its arguments to either the upstream
request it issues or the exception it throws before any fetch; the
post-fetch phase maps the upstream response to the result envelope or to
a thrown exception. -/

/-- Pre-fetch phase outcome of a handler: an upstream HTTP call is
attempted with the given request description, or an exception is thrown
before any fetch. -/
inductive PreFetch (α : Type) where
  | fetch : α → PreFetch α
  | thrown : String → PreFetch α
deriving DecidableEq

/-- Whether the pre-fetch phase reaches the upstream HTTP call. -/
def PreFetch.isFetch : PreFetch α → Bool
  | PreFetch.fetch _ => true
  | PreFetch.thrown _ => false

/-- Coordinate object `{lat, lng}` with JS numbers as rationals. -/
structure Coord where
  lat : ℚ
  lng : ℚ
deriving DecidableEq

/-- Arguments object of a search_places call; every field may be absent
(JS undefined). -/
structure SearchArgs where
  query : Option String
  location : Option Coord
  radius : Option ℚ
deriving DecidableEq

/-- Circular location bias sent upstream:
`{circle: {center: {latitude, longitude}, radius}}`. -/
structure LocationBias where
  centerLat : ℚ
  centerLng : ℚ
  radius : ℚ
deriving DecidableEq

/-- Upstream text-search request body built by handleSearchPlaces:
`{textQuery, locationBias?}` (an absent textQuery is dropped by
JSON.stringify). -/
structure SearchRequest where
  textQuery : Option String
  locationBias : Option LocationBias
deriving DecidableEq

/-- Upstream request body built by `handleSearchPlaces`
(src/unnamed/part_003 lines 22-39, src/src/index.ts lines 175-195):
radius defaults to 5000; the bias is attached only when
`location?.lat && location?.lng` is truthy, i.e. when location is present
and both coordinates are nonzero (JS number truthiness), with the radius
clamped to 50000 by `Math.min`. -/
def searchUpstreamRequest (args : SearchArgs) : SearchRequest :=
  let radius := args.radius.getD 5000
  { textQuery := args.query
    locationBias :=
      match args.location with
      | some l =>
        if l.lat ≠ 0 ∧ l.lng ≠ 0 then
          some ⟨l.lat, l.lng, min radius 50000⟩
        else
          none
      | none => none }

/-- Pre-fetch phase of `handleSearchPlaces`: the handler performs no
argument validation, so it always reaches the upstream fetch with the
request body built from whatever arguments it received. -/
def handleSearchPlacesPre (args : SearchArgs) : PreFetch SearchRequest :=
  PreFetch.fetch (searchUpstreamRequest args)

/-- Arguments object of a get_place_details call.  A place identifier is
modelled as its character sequence, so that the resource-path
normalization is stated over the same data the code manipulates. -/
structure DetailsArgs where
  place_id : Option (List Char)
deriving DecidableEq

/-- Character sequence of a string literal. -/
def jstr (s : String) : List Char := s.data

/-- Message of the TypeError thrown when `place_id.startsWith` is read
off undefined (the actual Node text also names the property). -/
def detailsMissingIdMsg : String :=
  "TypeError: cannot read startsWith of undefined"

/-- Upstream request path built by `handleGetPlaceDetails`
(src/unnamed/part_003 lines 96-97, src/src/index.ts lines 267-269):
`place_id.startsWith('places/') ? place_id.substring(7) : place_id`
appended to the places endpoint. -/
def detailsUpstreamPath (pid : List Char) : List Char :=
  jstr "https://places.googleapis.com/v1/places/" ++
    (if (jstr "places/").isPrefixOf pid then pid.drop 7 else pid)

/-- Pre-fetch phase of `handleGetPlaceDetails`: with place_id absent, the
property read `place_id.startsWith` throws a TypeError before any fetch;
otherwise the upstream GET is issued at the normalized path. -/
def handleGetPlaceDetailsPre (args : DetailsArgs) : PreFetch (List Char) :=
  match args.place_id with
  | none => PreFetch.thrown detailsMissingIdMsg
  | some pid => PreFetch.fetch (detailsUpstreamPath pid)

/-- JS `||` fallback on an optional string: undefined and the empty
string are falsy. -/
def jsOrStr (v : Option String) (d : String) : String :=
  match v with
  | none => d
  | some s => if s = "" then d else s

/-- JS template interpolation of a possibly-undefined string. -/
def jsShowOptStr : Option String → String
  | none => "undefined"
  | some s => s

/-- The `{latitude, longitude}` object of an upstream place, with each
field possibly absent. -/
structure PlaceLatLng where
  latitude : Option ℚ
  longitude : Option ℚ
deriving DecidableEq

/-- One place object of the upstream text-search response, restricted to
the fields the handler reads. -/
structure Place where
  name : Option String
  displayNameText : Option String
  formattedAddress : Option String
  id : Option String
  location : Option PlaceLatLng
  types : Option (List String)
  rating : Option ℚ
  userRatingCount : Option ℚ
  businessStatus : Option String
deriving DecidableEq

/-- Body of the upstream text-search response: `{places?: [...]}`. -/
structure SearchData where
  places : Option (List Place)
deriving DecidableEq

/-- Output coordinates `{lat, lng}` of a mapped entry; each side may be
undefined when the upstream place lacks it. -/
structure OutLatLng where
  lat : Option ℚ
  lng : Option ℚ
deriving DecidableEq

/-- One entry of the search result list as built by the mapper. -/
structure SearchEntry where
  name : String
  address : String
  place_id : Option String
  resource_name : String
  location : OutLatLng
  types : List String
  rating : Option ℚ
  user_ratings_total : Option ℚ
  business_status : Option String
deriving DecidableEq

/-- Per-place mapper of `handleSearchPlaces` (src/unnamed/part_003 lines
58-75): display name and address fall back to fixed strings, the
resource name falls back to a template over the id, coordinates are read
through optional chaining, types default to the empty list. -/
def mapPlace (p : Place) : SearchEntry :=
  { name := jsOrStr p.displayNameText "Unknown"
    address := jsOrStr p.formattedAddress "No address"
    place_id := p.id
    resource_name := jsOrStr p.name ("places/" ++ jsShowOptStr p.id)
    location :=
      match p.location with
      | none => ⟨none, none⟩
      | some l => ⟨l.latitude, l.longitude⟩
    types := p.types.getD []
    rating := p.rating
    user_ratings_total := p.userRatingCount
    business_status := p.businessStatus }

/-- Object serialized into the search result envelope:
`{success, query, count, results}` (src/unnamed/part_003 lines 77-89). -/
structure SearchOutput where
  success : Bool
  query : Option String
  count : Nat
  results : List SearchEntry
deriving DecidableEq

/-- Post-fetch phase of `handleSearchPlaces` on a 2xx upstream response
(src/unnamed/part_003 lines 56-90): `(data.places || []).slice(0, 10)`
mapped per place, wrapped with the query echo and the count. -/
def handleSearchPlacesPost (args : SearchArgs) (data : SearchData) : SearchOutput :=
  let results := ((data.places.getD []).take 10).map mapPlace
  { success := true, query := args.query, count := results.length, results := results }

/-- Coordinate pair of an elevation result. -/
structure ElevLoc where
  lat : ℚ
  lng : ℚ
deriving DecidableEq

/-- One result object of the upstream elevation response. -/
structure ElevApiResult where
  elevation : ℚ
  location : ElevLoc
deriving DecidableEq

/-- Upstream elevation response as the handler observes it: the HTTP
level `response.ok` flag with status and body text for the error message,
and the parsed JSON `{status, results}`. -/
structure ElevUpstream where
  ok : Bool
  httpStatus : Nat
  bodyText : String
  status : String
  results : List ElevApiResult
deriving DecidableEq

/-- One entry of the mapped elevation result list. -/
structure ElevEntry where
  elevation : ℚ
  location : ElevLoc
deriving DecidableEq

/-- Object serialized into the elevation result envelope. -/
structure ElevOutput where
  success : Bool
  count : Nat
  results : List ElevEntry
deriving DecidableEq

/-- Post-fetch phase of `handleGetElevation` (src/unnamed/part_003 lines
175-208): throws on a non-2xx HTTP response, throws when the embedded
status field differs from OK, otherwise maps elevation and coordinates
per result. -/
def handleGetElevationPost (u : ElevUpstream) : Except String ElevOutput :=
  if u.ok = false then
    Except.error ("Elevation API error (" ++ toString u.httpStatus ++ "): " ++ u.bodyText)
  else if u.status ≠ "OK" then
    Except.error ("Elevation API error: " ++ u.status)
  else
    let results := u.results.map (fun r => ({ elevation := r.elevation, location := r.location } : ElevEntry))
    Except.ok { success := true, count := results.length, results := results }

/-! ## Theorems for the frozen claims -/

/-- Claim C6 counterexample: the claim quantifies over every place
identifier string, but for an identifier that itself begins with the
resource-path segment — here the fully-concrete id places/x — the
prefixed form places/places/x is stripped once to places/x while the
bare form is stripped to x, so the two upstream request paths differ. -/
theorem C6_counterexample :
    detailsUpstreamPath (jstr "places/" ++ jstr "places/x")
      ≠ detailsUpstreamPath (jstr "places/x") := by decide

/-- Claim C6 (corrected): for every place identifier that does not itself
begin with the segment places/, a get_place_details call given the
identifier prefixed with places/ and the same call given the bare
identifier produce the same upstream request path. -/
theorem C6_details_path_roundtrip :
    ∀ pid : List Char, (jstr "places/").isPrefixOf pid = false →
      detailsUpstreamPath (jstr "places/" ++ pid) = detailsUpstreamPath pid := by
  intro pid h
  have h1 : (jstr "places/").isPrefixOf (jstr "places/" ++ pid) = true := by
    rw [List.isPrefixOf_iff_prefix]
    exact List.prefix_append _ _
  have hdrop : (jstr "places/" ++ pid).drop 7 = pid := by
    have h7 : (7 : Nat) = (jstr "places/").length := by decide
    rw [h7, List.drop_left]
  unfold detailsUpstreamPath
  rw [h1, h, hdrop]
  simp

/-- Claim C6 witness: a representative Google place id does not start
with places/, and the round trip holds for it. -/
theorem C6_details_path_roundtrip_witness :
    (jstr "places/").isPrefixOf (jstr "ChIJN1t_tDeuEmsRUsoyG83frY4") = false ∧
    detailsUpstreamPath (jstr "places/" ++ jstr "ChIJN1t_tDeuEmsRUsoyG83frY4")
      = detailsUpstreamPath (jstr "ChIJN1t_tDeuEmsRUsoyG83frY4") :=
  ⟨by decide, C6_details_path_roundtrip _ (by decide)⟩

/-- Claim C7: when the upstream elevation HTTP response succeeds but its
embedded status field is not OK, the handler throws an upstream error
naming that status and never returns a success envelope, in particular
never a success with an empty result list. -/
theorem C7_elevation_non_ok_fails :
    ∀ u : ElevUpstream, u.ok = true → u.status ≠ "OK" →
      handleGetElevationPost u = Except.error ("Elevation API error: " ++ u.status) ∧
      ∀ out : ElevOutput, handleGetElevationPost u ≠ Except.ok out := by
  intro u h1 h2
  have hmain : handleGetElevationPost u = Except.error ("Elevation API error: " ++ u.status) := by
    unfold handleGetElevationPost
    rw [h1]
    simp [h2]
  exact ⟨hmain, fun out hok => by rw [hmain] at hok; exact Except.noConfusion hok⟩

/-- Claim C7 witness: the scenario of the claim — one Seattle coordinate,
an upstream body with status ZERO_RESULTS and an empty result list —
yields the upstream error, not a success. -/
theorem C7_elevation_non_ok_fails_witness :
    (({ ok := true, httpStatus := 200, bodyText := "", status := "ZERO_RESULTS",
        results := [] } : ElevUpstream).ok = true) ∧
    ("ZERO_RESULTS" : String) ≠ "OK" ∧
    handleGetElevationPost
        { ok := true, httpStatus := 200, bodyText := "", status := "ZERO_RESULTS", results := [] }
      = Except.error "Elevation API error: ZERO_RESULTS" :=
  ⟨rfl, by decide,
    (C7_elevation_non_ok_fails _ rfl (by decide)).1⟩

/-- Claim C8: whenever the location bias is attached (location present
with truthy coordinates), the radius sent upstream is the minimum of the
supplied radius (default 5000) and 50000. -/
theorem C8_radius_clamped :
    ∀ (args : SearchArgs) (l : Coord), args.location = some l →
      l.lat ≠ 0 → l.lng ≠ 0 →
      (searchUpstreamRequest args).locationBias
        = some ⟨l.lat, l.lng, min (args.radius.getD 5000) 50000⟩ := by
  intro args l h h1 h2
  unfold searchUpstreamRequest
  rw [h]
  simp [h1, h2]

/-- Claim C8 witness: the scenario of the claim — radius argument 999999
with the Seattle location bias — is clamped to 50000 upstream. -/
theorem C8_radius_clamped_witness :
    (47.6062 : ℚ) ≠ 0 ∧ (-122.3321 : ℚ) ≠ 0 ∧
    (searchUpstreamRequest
        { query := some "coffee shops in Seattle",
          location := some ⟨47.6062, -122.3321⟩,
          radius := some 999999 }).locationBias
      = some ⟨47.6062, -122.3321, 50000⟩ :=
  ⟨by norm_num, by norm_num, by
    rw [C8_radius_clamped _ ⟨47.6062, -122.3321⟩ rfl (by norm_num) (by norm_num)]
    norm_num [min_def]⟩

/-- Claim C9: the search result list is the per-place mapping of the
first ten upstream places in upstream order — so it never exceeds ten
entries, and the entry at each index carries the name, address,
place_id and location fields mapped from the upstream place at the same
index. -/
theorem C9_search_truncates_and_maps :
    ∀ (args : SearchArgs) (data : SearchData),
      (handleSearchPlacesPost args data).results.length ≤ 10 ∧
      ∀ (i : Nat) (hi : i < (handleSearchPlacesPost args data).results.length),
        ∃ hp : i < (data.places.getD []).length,
          (handleSearchPlacesPost args data).results.get ⟨i, hi⟩
              = mapPlace ((data.places.getD []).get ⟨i, hp⟩) ∧
            ((handleSearchPlacesPost args data).results.get ⟨i, hi⟩).place_id
              = ((data.places.getD []).get ⟨i, hp⟩).id ∧
            ((handleSearchPlacesPost args data).results.get ⟨i, hi⟩).name
              = jsOrStr ((data.places.getD []).get ⟨i, hp⟩).displayNameText "Unknown" ∧
            ((handleSearchPlacesPost args data).results.get ⟨i, hi⟩).address
              = jsOrStr ((data.places.getD []).get ⟨i, hp⟩).formattedAddress "No address" := by
  intro args data
  constructor
  · simp [handleSearchPlacesPost, List.length_take]
  · intro i hi
    have hlen : (handleSearchPlacesPost args data).results.length
        = min 10 (data.places.getD []).length := by
      simp [handleSearchPlacesPost, List.length_take]
    have hp : i < (data.places.getD []).length := by
      have := hi
      rw [hlen] at this
      exact lt_of_lt_of_le this (min_le_right _ _)
    refine ⟨hp, ?_, ?_, ?_, ?_⟩ <;>
      simp [handleSearchPlacesPost, List.get_eq_getElem, List.getElem_map, List.getElem_take,
        mapPlace]

/-- Claim C9 witness: a concrete upstream response with eleven places is
truncated to ten, and the first entry carries the mapped fields of the
first upstream place. -/
theorem C9_search_truncates_and_maps_witness :
    (handleSearchPlacesPost { query := some "coffee shops in Seattle", location := none, radius := none }
        ⟨some (List.replicate 11
          ({ name := some "places/p0", displayNameText := some "Pike Place Roast",
             formattedAddress := some "Seattle, WA", id := some "p0",
             location := some ⟨some 47, some (-122)⟩, types := none,
             rating := none, userRatingCount := none, businessStatus := none } : Place))⟩).results.length
        ≤ 10 ∧
    ((handleSearchPlacesPost { query := some "coffee shops in Seattle", location := none, radius := none }
        ⟨some (List.replicate 11
          ({ name := some "places/p0", displayNameText := some "Pike Place Roast",
             formattedAddress := some "Seattle, WA", id := some "p0",
             location := some ⟨some 47, some (-122)⟩, types := none,
             rating := none, userRatingCount := none, businessStatus := none } : Place))⟩).results.get
        ⟨0, by decide⟩).place_id = some "p0" := by
  have h := C9_search_truncates_and_maps
    { query := some "coffee shops in Seattle", location := none, radius := none }
    ⟨some (List.replicate 11
      ({ name := some "places/p0", displayNameText := some "Pike Place Roast",
         formattedAddress := some "Seattle, WA", id := some "p0",
         location := some ⟨some 47, some (-122)⟩, types := none,
         rating := none, userRatingCount := none, businessStatus := none } : Place))⟩
  refine ⟨h.1, ?_⟩
  obtain ⟨hp, -, hpid, -, -⟩ := h.2 0 (by decide)
  rw [hpid]
  rfl

/-- Claim C10: the circular location bias is attached to the upstream
search request exactly when a location with both coordinates nonzero
(JS-truthy) is supplied; with a zero latitude or longitude the bias and
radius are silently dropped while the upstream call still proceeds with
the text query alone. -/
theorem C10_location_bias_truthiness :
    ∀ args : SearchArgs,
      ((searchUpstreamRequest args).locationBias.isSome = true ↔
        ∃ l, args.location = some l ∧ l.lat ≠ 0 ∧ l.lng ≠ 0) ∧
      (∀ l, args.location = some l → (l.lat = 0 ∨ l.lng = 0) →
        handleSearchPlacesPre args
          = PreFetch.fetch { textQuery := args.query, locationBias := none }) := by
  intro args
  constructor
  · unfold searchUpstreamRequest
    cases hloc : args.location with
    | none => simp
    | some l =>
      dsimp only
      by_cases hl : l.lat ≠ 0 ∧ l.lng ≠ 0
      · rw [if_pos hl]
        constructor
        · intro _
          exact ⟨l, rfl, hl⟩
        · intro _
          rfl
      · rw [if_neg hl]
        constructor
        · intro h
          simp at h
        · rintro ⟨l', hl', h1, h2⟩
          injection hl' with hll
          subst hll
          exact absurd ⟨h1, h2⟩ hl
  · intro l h hzero
    unfold handleSearchPlacesPre searchUpstreamRequest
    rw [h]
    have : ¬ (l.lat ≠ 0 ∧ l.lng ≠ 0) := by
      rcases hzero with h0 | h0 <;> simp [h0]
    simp [this]

/-- Claim C10 witness: a location on the equator (latitude 0) drops the
bias while the upstream call is still made with the text query. -/
theorem C10_location_bias_truthiness_witness :
    (({ query := some "coffee", location := some ⟨0, -122.3321⟩, radius := some 2000 } : SearchArgs).location
        = some ⟨0, -122.3321⟩) ∧
    ((0 : ℚ) = 0 ∨ (-122.3321 : ℚ) = 0) ∧
    handleSearchPlacesPre { query := some "coffee", location := some ⟨0, -122.3321⟩, radius := some 2000 }
      = PreFetch.fetch { textQuery := some "coffee", locationBias := none } :=
  ⟨rfl, Or.inl rfl,
    (C10_location_bias_truthiness _).2 ⟨0, -122.3321⟩ rfl (Or.inl rfl)⟩

/-! ## Dispatcher helper lemmas -/

/-- Success responses built by the modelled helper have exactly the
result field. -/
theorem exclusiveBody_createSuccessResponse (id : Option RpcId) (r : McpResult) :
    exclusiveBody (createSuccessResponse id r) :=
  Or.inl ⟨rfl, rfl⟩

/-- Error responses built by the modelled helper have exactly the error
field. -/
theorem exclusiveBody_createErrorResponse (id : Option RpcId) (c : Int) (m : String) :
    exclusiveBody (createErrorResponse id c m) :=
  Or.inr ⟨rfl, rfl⟩

/-- The dispatcher returns null exactly for the ping and
notifications/initialized methods. -/
theorem dispatch_null_of_ping (exec : ToolExec) (req : McpRequest)
    (h : req.method = "ping" ∨ req.method = "notifications/initialized") :
    (handleMcpRequest exec req).response = none := by
  rcases h with h | h <;> simp [handleMcpRequest, h]

/-- For every method other than ping and notifications/initialized, the
dispatcher produces a well-formed response that echoes the request id. -/
theorem dispatch_some_shape (exec : ToolExec) (req : McpRequest)
    (hp : req.method ≠ "ping") (hn : req.method ≠ "notifications/initialized") :
    ∃ resp, (handleMcpRequest exec req).response = some resp ∧
      resp.jsonrpc = "2.0" ∧ resp.id = req.id ∧ exclusiveBody resp := by
  by_cases h1 : req.method = "initialize"
  · exact ⟨createSuccessResponse req.id McpResult.initInfo,
      by simp [handleMcpRequest, h1], rfl, rfl, exclusiveBody_createSuccessResponse _ _⟩
  by_cases h2 : req.method = "tools/list"
  · exact ⟨createSuccessResponse req.id McpResult.toolCatalog,
      by simp [handleMcpRequest, h2, h1], rfl, rfl, exclusiveBody_createSuccessResponse _ _⟩
  by_cases h3 : req.method = "tools/call"
  · cases hpar : (req.params.getD default).name with
    | none =>
      exact ⟨createErrorResponse req.id INVALID_PARAMS "Missing tool name",
        by simp [handleMcpRequest, h3, h1, h2, hpar], rfl, rfl,
        exclusiveBody_createErrorResponse _ _ _⟩
    | some n =>
      by_cases he : n = ""
      · exact ⟨createErrorResponse req.id INVALID_PARAMS "Missing tool name",
          by simp [handleMcpRequest, h3, h1, h2, hpar, he], rfl, rfl,
          exclusiveBody_createErrorResponse _ _ _⟩
      by_cases hm : n ∈ httpToolNames
      · cases hex : exec n with
        | ok r =>
          exact ⟨createSuccessResponse req.id (McpResult.toolOutput r),
            by simp [handleMcpRequest, h3, h1, h2, hpar, he, hm, hex], rfl, rfl,
            exclusiveBody_createSuccessResponse _ _⟩
        | error m =>
          exact ⟨createErrorResponse req.id INTERNAL_ERROR m,
            by simp [handleMcpRequest, h3, h1, h2, hpar, he, hm, hex], rfl, rfl,
            exclusiveBody_createErrorResponse _ _ _⟩
      · exact ⟨createErrorResponse req.id METHOD_NOT_FOUND ("Unknown tool: " ++ n),
          by simp [handleMcpRequest, h3, h1, h2, hpar, he, hm], rfl, rfl,
          exclusiveBody_createErrorResponse _ _ _⟩
  · exact ⟨createErrorResponse req.id METHOD_NOT_FOUND ("Unknown method: " ++ req.method),
      by simp [handleMcpRequest, h3, h1, h2, hp, hn], rfl, rfl,
      exclusiveBody_createErrorResponse _ _ _⟩

/-! ## Theorems for claims C1 to C5 -/

/-- Claim C1 counterexample: a search_places call whose arguments lack
query does not fail with InvalidArguments — the handler performs no
validation at all and still attempts the upstream HTTP call. -/
theorem C1_counterexample :
    (handleSearchPlacesPre { query := none, location := none, radius := none }).isFetch
      = true := by decide

/-- Claim C1 (corrected): the handlers do not validate required
arguments.  A search_places call missing query still attempts the
upstream HTTP call; a get_place_details call missing place_id throws a
TypeError before any upstream call, which the dispatcher surfaces as an
InternalError response — not as an InvalidArguments error. -/
theorem C1_missing_arguments_behavior :
    (∀ args : SearchArgs, args.query = none →
      (handleSearchPlacesPre args).isFetch = true) ∧
    (∀ args : DetailsArgs, args.place_id = none →
      handleGetPlaceDetailsPre args = PreFetch.thrown detailsMissingIdMsg) ∧
    (∀ exec : ToolExec, exec "get_place_details" = Except.error detailsMissingIdMsg →
      (handleMcpRequest exec
          ⟨some "2.0", some (RpcId.num 1), "tools/call", some ⟨some "get_place_details"⟩⟩).response
        = some (createErrorResponse (some (RpcId.num 1)) INTERNAL_ERROR detailsMissingIdMsg)) := by
  refine ⟨fun args h => rfl, fun args h => ?_, fun exec h => ?_⟩
  · simp [handleGetPlaceDetailsPre, h]
  · simp [handleMcpRequest, httpToolNames, h]

/-- Claim C1 witness: concrete instances of the corrected behavior. -/
theorem C1_missing_arguments_behavior_witness :
    (handleSearchPlacesPre { query := none, location := some ⟨47, -122⟩, radius := some 2000 }).isFetch
        = true ∧
    handleGetPlaceDetailsPre ⟨none⟩ = PreFetch.thrown detailsMissingIdMsg ∧
    (handleMcpRequest (fun _ => Except.error detailsMissingIdMsg)
        ⟨some "2.0", some (RpcId.num 1), "tools/call", some ⟨some "get_place_details"⟩⟩).response
      = some (createErrorResponse (some (RpcId.num 1)) INTERNAL_ERROR detailsMissingIdMsg) :=
  ⟨C1_missing_arguments_behavior.1 _ rfl,
    C1_missing_arguments_behavior.2.1 _ rfl,
    C1_missing_arguments_behavior.2.2 _ rfl⟩

/-- Claim C2 counterexample: a notifications/initialized notification on
the WebSocket transport does produce an outbound message — the handler
has no case for that method, so it sends back a MethodNotFound error
response. -/
theorem C2_counterexample :
    ((wsHandle (fun _ => Except.ok ⟨[]⟩)
        ⟨some "2.0", none, "notifications/initialized", none⟩).response.error.map
      ErrorObj.code) = some METHOD_NOT_FOUND := by decide

/-- Claim C2 (corrected): on the streamable-HTTP transport, dispatch
returns null for ping and notifications/initialized and the POST
endpoint answers 202 with an empty body for them and for every
notification; the WebSocket transport, however, answers every parsed
message, and for ping or notifications/initialized it sends back a
MethodNotFound error. -/
theorem C2_no_response_body_for_notifications :
    (∀ (exec : ToolExec) (req : McpRequest),
      req.method = "ping" ∨ req.method = "notifications/initialized" →
      (handleMcpRequest exec req).response = none) ∧
    (∀ (exec : ToolExec) (hdr : Option String) (req : McpRequest),
      (match hdr with
        | none => true
        | some v => validateMcpProtocolVersion v) = true →
      isValidJsonRpc req = true →
      (req.method = "ping" ∨ req.method = "notifications/initialized" ∨
        isNotificationMsg req = true) →
      postMcp exec hdr req = PostOutcome.accepted) ∧
    (∀ (exec : ToolExec) (id : Option RpcId) (m : String),
      m = "ping" ∨ m = "notifications/initialized" →
      ((wsHandle exec ⟨some "2.0", id, m, none⟩).response.error.map ErrorObj.code)
        = some METHOD_NOT_FOUND) := by
  refine ⟨dispatch_null_of_ping, ?_, ?_⟩
  · intro exec hdr req hhdr hvalid hcase
    by_cases hn : isNotificationMsg req = true
    · simp [postMcp, hhdr, hvalid, hn]
    · have hdisp : (handleMcpRequest exec req).response = none := by
        rcases hcase with hm | hm | hm
        · exact dispatch_null_of_ping exec req (Or.inl hm)
        · exact dispatch_null_of_ping exec req (Or.inr hm)
        · exact absurd hm hn
      simp [postMcp, hhdr, hvalid, hn, hdisp]
  · intro exec id m hm
    rcases hm with hm | hm <;> subst hm <;> rfl

/-- Claim C2 witness: a ping request with an id gets no dispatch
response and a 202 on the HTTP transport, while the WebSocket transport
answers it with a MethodNotFound error. -/
theorem C2_no_response_body_witness :
    (handleMcpRequest (fun _ => Except.ok ⟨[]⟩)
        ⟨some "2.0", some (RpcId.num 5), "ping", none⟩).response = none ∧
    postMcp (fun _ => Except.ok ⟨[]⟩) none
        ⟨some "2.0", some (RpcId.num 5), "ping", none⟩ = PostOutcome.accepted ∧
    ((wsHandle (fun _ => Except.ok ⟨[]⟩)
        ⟨some "2.0", some (RpcId.num 5), "ping", none⟩).response.error.map ErrorObj.code)
      = some METHOD_NOT_FOUND :=
  ⟨C2_no_response_body_for_notifications.1 _ _ (Or.inl rfl),
    C2_no_response_body_for_notifications.2.1 _ none _ rfl rfl (Or.inl rfl),
    C2_no_response_body_for_notifications.2.2 _ _ _ (Or.inl rfl)⟩

/-- Claim C3 counterexample: a tools/call request with id 3 naming an
unknown tool on the WebSocket transport is answered with an error
response whose id is null, not 3 — the catch block reads the id off the
raw socket buffer instead of the parsed message. -/
theorem C3_counterexample :
    (wsHandle (fun _ => Except.ok ⟨[]⟩)
        ⟨some "2.0", some (RpcId.num 3), "tools/call", some ⟨some "unknown_tool"⟩⟩).response.id
      = some RpcId.null ∧
    some RpcId.null ≠ some (RpcId.num 3) :=
  ⟨by decide, by decide⟩

/-- Claim C3 (corrected): every WebSocket message is answered with
exactly one response carrying exactly one of result or error; the
success path echoes the request id, but the error path always carries a
null id.  On the streamable-HTTP transport, requests that pass envelope
validation, carry a non-null id, and use a method other than ping and
notifications/initialized receive exactly one well-formed response
echoing the request id. -/
theorem C3_response_correlation :
    (∀ (exec : ToolExec) (msg : McpRequest),
      (wsHandle exec msg).response.jsonrpc = "2.0" ∧
      exclusiveBody (wsHandle exec msg).response ∧
      ((wsHandle exec msg).response.error = none →
        (wsHandle exec msg).response.id = msg.id) ∧
      ((wsHandle exec msg).response.error ≠ none →
        (wsHandle exec msg).response.id = some RpcId.null)) ∧
    (∀ (exec : ToolExec) (req : McpRequest),
      isValidJsonRpc req = true → isNotificationMsg req = false →
      req.method ≠ "ping" → req.method ≠ "notifications/initialized" →
      ∃ resp, postMcp exec none req = PostOutcome.jsonBody resp ∧
        resp.jsonrpc = "2.0" ∧ resp.id = req.id ∧ exclusiveBody resp) := by
  constructor
  · intro exec msg
    rcases hE : wsTryOutcome exec msg with ⟨res, k⟩
    cases res with
    | ok r =>
      refine ⟨?_, ?_, ?_, ?_⟩ <;> simp [wsHandle, hE, exclusiveBody]
    | error e =>
      refine ⟨?_, ?_, ?_, ?_⟩ <;> simp [wsHandle, hE, exclusiveBody]
  · intro exec req hvalid hnotif hp hn
    obtain ⟨resp, hresp, hj, hid, hex⟩ := dispatch_some_shape exec req hp hn
    refine ⟨resp, ?_, hj, hid, hex⟩
    simp [postMcp, hvalid, hnotif, hresp]

/-- Claim C3 witness: a tools/list success on the WebSocket transport
echoes id 2, and a tools/list POST with id 9 yields exactly one
well-formed JSON body echoing id 9. -/
theorem C3_response_correlation_witness :
    (wsHandle (fun _ => Except.ok ⟨[]⟩)
        ⟨some "2.0", some (RpcId.num 2), "tools/list", none⟩).response.id
      = some (RpcId.num 2) ∧
    (∃ resp, postMcp (fun _ => Except.ok ⟨[]⟩) none
        ⟨some "2.0", some (RpcId.num 9), "tools/list", none⟩ = PostOutcome.jsonBody resp ∧
      resp.jsonrpc = "2.0" ∧ resp.id = some (RpcId.num 9) ∧ exclusiveBody resp) := by
  constructor
  · exact (C3_response_correlation.1 (fun _ => Except.ok ⟨[]⟩)
      ⟨some "2.0", some (RpcId.num 2), "tools/list", none⟩).2.2.1 rfl
  · exact C3_response_correlation.2 (fun _ => Except.ok ⟨[]⟩)
      ⟨some "2.0", some (RpcId.num 9), "tools/list", none⟩ rfl rfl (by decide) (by decide)

/-- Claim C4 counterexample: a tools/call request whose params.name is
the empty string names no known tool, yet the HTTP dispatcher treats it
as missing (JS falsiness) and answers InvalidParams, not
MethodNotFound. -/
theorem C4_counterexample :
    (handleMcpRequest (fun _ => Except.ok ⟨[]⟩)
        ⟨some "2.0", some (RpcId.num 7), "tools/call", some ⟨some ""⟩⟩).response
      = some (createErrorResponse (some (RpcId.num 7)) INVALID_PARAMS "Missing tool name") ∧
    INVALID_PARAMS ≠ METHOD_NOT_FOUND :=
  ⟨by decide, by decide⟩

/-- Claim C4 (corrected): a tools/call naming a nonempty unknown tool is
answered with a MethodNotFound error on both transports, with no handler
invoked and no exception escaping (the handlers of both dispatchers are
total and every thrown routing error is caught and converted); an
empty-string tool name is treated as missing by the HTTP dispatcher and
answered with InvalidParams instead. -/
theorem C4_unknown_tool_method_not_found :
    (∀ (exec : ToolExec) (req : McpRequest) (p : McpParams) (n : String),
      req.method = "tools/call" → req.params = some p → p.name = some n →
      n ≠ "" → n ∉ httpToolNames →
      (handleMcpRequest exec req).response
          = some (createErrorResponse req.id METHOD_NOT_FOUND ("Unknown tool: " ++ n)) ∧
        (handleMcpRequest exec req).handlerRuns = 0) ∧
    (∀ (exec : ToolExec) (req : McpRequest) (p : McpParams) (n : String),
      req.method = "tools/call" → req.params = some p → p.name = some n →
      n ∉ wsToolNames →
      (wsHandle exec req).response.result = none ∧
        ((wsHandle exec req).response.error.map ErrorObj.code) = some METHOD_NOT_FOUND ∧
        (wsHandle exec req).handlerRuns = 0) ∧
    (∀ (exec : ToolExec) (req : McpRequest) (p : McpParams),
      req.method = "tools/call" → req.params = some p →
      (p.name = none ∨ p.name = some "") →
      (handleMcpRequest exec req).response
        = some (createErrorResponse req.id INVALID_PARAMS "Missing tool name")) := by
  refine ⟨?_, ?_, ?_⟩
  · intro exec req p n h1 h2 h3 h4 h5
    constructor <;> simp [handleMcpRequest, h1, h2, h3, h4, h5]
  · intro exec req p n h1 h2 h3 h4
    refine ⟨?_, ?_, ?_⟩ <;> simp [wsHandle, wsTryOutcome, h1, h2, h3, h4]
  · intro exec req p h1 h2 h3
    rcases h3 with h3 | h3 <;> simp [handleMcpRequest, h1, h2, h3]

/-- Claim C4 witness: the unknown tool name unknown_tool with id 4 is
answered with MethodNotFound on both transports. -/
theorem C4_unknown_tool_witness :
    (handleMcpRequest (fun _ => Except.ok ⟨[]⟩)
        ⟨some "2.0", some (RpcId.num 4), "tools/call", some ⟨some "unknown_tool"⟩⟩).response
      = some (createErrorResponse (some (RpcId.num 4)) METHOD_NOT_FOUND
          ("Unknown tool: " ++ "unknown_tool")) ∧
    ((wsHandle (fun _ => Except.ok ⟨[]⟩)
        ⟨some "2.0", some (RpcId.num 4), "tools/call", some ⟨some "unknown_tool"⟩⟩).response.error.map
      ErrorObj.code) = some METHOD_NOT_FOUND :=
  ⟨(C4_unknown_tool_method_not_found.1 _ _ ⟨some "unknown_tool"⟩ "unknown_tool"
      rfl rfl rfl (by decide) (by decide)).1,
    (C4_unknown_tool_method_not_found.2.1 _ _ ⟨some "unknown_tool"⟩ "unknown_tool"
      rfl rfl rfl (by decide)).2.1⟩

/-- Claim C5: every exception thrown while a known tool handler executes
is caught at the dispatcher boundary and converted into an InternalError
response whose message is the exception message; the response carries no
result field (no partial result) and the handler ran exactly once (no
retry). -/
theorem C5_handler_exception_internal_error :
    ∀ (exec : ToolExec) (req : McpRequest) (p : McpParams) (n msg : String),
      req.method = "tools/call" → req.params = some p → p.name = some n →
      n ≠ "" → n ∈ httpToolNames → exec n = Except.error msg →
      (handleMcpRequest exec req).response
          = some (createErrorResponse req.id INTERNAL_ERROR msg) ∧
        (handleMcpRequest exec req).handlerRuns = 1 := by
  intro exec req p n msg h1 h2 h3 h4 h5 h6
  constructor <;> simp [handleMcpRequest, h1, h2, h3, h4, h5, h6]

/-- Claim C5 witness: a search_places handler throwing an upstream error
is answered with an InternalError response carrying the message, after
exactly one handler run. -/
theorem C5_handler_exception_witness :
    (handleMcpRequest (fun _ => Except.error "Places API error (500): boom")
        ⟨some "2.0", some (RpcId.num 6), "tools/call", some ⟨some "search_places"⟩⟩).response
      = some (createErrorResponse (some (RpcId.num 6)) INTERNAL_ERROR
          "Places API error (500): boom") ∧
    (handleMcpRequest (fun _ => Except.error "Places API error (500): boom")
        ⟨some "2.0", some (RpcId.num 6), "tools/call", some ⟨some "search_places"⟩⟩).handlerRuns
      = 1 :=
  C5_handler_exception_internal_error _ _ ⟨some "search_places"⟩ "search_places" _
    rfl rfl rfl (by decide) (by decide) rfl

end GooglePlacesMcp
